import Mathlib

/-!
Shallow embedding of the TTS gateway service (src/gateway/main.py) and proofs
of the specification's claims about it.

The gateway fronts a TTS backend and augments synthesized audio with
word-level timing alignment.  The embedding models the pure data flow of the
handlers; external effects (the HTTP backend call and the whisper model
inference) are passed in as explicit values, and the filesystem of temporary
files is threaded as explicit state.
-/

namespace TTSGateway

/-- True when the character lies in the Hiragana range (U+3040..U+309F) or the
Katakana range (U+30A0..U+30FF), mirroring the per-character test in
`generate_speech_with_alignment` (main.py line 304). -/
def isKanaChar (c : Char) : Bool :=
  (0x3040 ≤ c.toNat && c.toNat ≤ 0x309F) || (0x30A0 ≤ c.toNat && c.toNat ≤ 0x30FF)

/-- True when the character lies in the CJK Unified Ideographs range
(U+4E00..U+9FFF), mirroring main.py line 306. -/
def isCJKChar (c : Char) : Bool :=
  0x4E00 ≤ c.toNat && c.toNat ≤ 0x9FFF

/-- The language-detection heuristic inlined in `generate_speech_with_alignment`
(main.py lines 303-309): any Hiragana/Katakana character selects "ja", else any
CJK ideograph selects "zh", else "en". -/
def detectLanguage (text : String) : String :=
  if text.toList.any isKanaChar then "ja"
  else if text.toList.any isCJKChar then "zh"
  else "en"

/-- The language actually used for alignment (main.py lines 301-309):
`language = request.language; if not language: <heuristic>`.  Python's
`not language` is true for both `None` and the empty string. -/
def resolvedLanguage (hint : Option String) (text : String) : String :=
  match hint with
  | none => detectLanguage text
  | some s => if s = "" then detectLanguage text else s

/-- Spec-side predicate: some code point of the text falls in the Hiragana or
Katakana ranges. -/
def specHasKana (t : String) : Prop :=
  ∃ c ∈ t.toList, (0x3040 ≤ c.toNat ∧ c.toNat ≤ 0x309F) ∨ (0x30A0 ≤ c.toNat ∧ c.toNat ≤ 0x30FF)

/-- Spec-side predicate: some code point of the text falls in the CJK Unified
Ideographs range. -/
def specHasCJKIdeograph (t : String) : Prop :=
  ∃ c ∈ t.toList, 0x4E00 ≤ c.toNat ∧ c.toNat ≤ 0x9FFF

instance (t : String) : Decidable (specHasKana t) := by
  unfold specHasKana; infer_instance

instance (t : String) : Decidable (specHasCJKIdeograph t) := by
  unfold specHasCJKIdeograph; infer_instance

/-- Python's `round` with ties to even, on one rational: the nearest integer,
with a half-way value sent to the even neighbour.  Models `round(x, 3)` of
main.py lines 143-144 once the argument is scaled by 1000. -/
def roundHalfEven (q : ℚ) : ℤ :=
  if q - ⌊q⌋ = 1 / 2 then (if ⌊q⌋ % 2 = 0 then ⌊q⌋ else ⌊q⌋ + 1) else round q

/-- Rounding a time value to 3 decimal places, as `round(value, 3)` does for
the word timestamps. -/
def round3 (q : ℚ) : ℚ := (roundHalfEven (q * 1000) : ℚ) / 1000

/-- A word with timing, as returned by the gateway (the `WordTiming` pydantic
model of main.py lines 79-82).  Time values are modelled as rationals; the
source's `end` field is spelled `end_` because `end` is a Lean keyword. -/
structure WordTiming where
  word : String
  start : ℚ
  end_ : ℚ
deriving DecidableEq

/-- One word of the raw whisper model output (`word` objects of main.py
lines 140-145): untrimmed text and unrounded times. -/
structure RawWord where
  word : String
  start : ℚ
  end_ : ℚ
deriving DecidableEq

/-- One segment of the raw whisper model output; `words` is the segment's word
list (empty models a falsy `segment.words`). -/
structure Segment where
  words : List RawWord
deriving DecidableEq

/-- Building one emitted `WordTiming` from one raw model word
(main.py lines 141-145): trim surrounding whitespace, round times to 3
decimal places. -/
def mkWordTiming (w : RawWord) : WordTiming :=
  { word := w.word.trim, start := round3 w.start, end_ := round3 w.end_ }

/-- The flattening loop of `transcribe_with_word_timestamps` (main.py
lines 137-145): walk the segments in order and, for each segment with a
non-empty word list, append its words in order. -/
def flattenWords : List Segment → List WordTiming
  | [] => []
  | seg :: rest =>
      (if seg.words.isEmpty then [] else seg.words.map mkWordTiming) ++ flattenWords rest

/-- The state of the temporary-file store: the next fresh name and the set of
files currently on disk (file names are modelled as numbers). -/
structure TempFS where
  nextId : Nat
  files : List Nat
deriving DecidableEq

/-- `tempfile.NamedTemporaryFile(delete=False)` (main.py line 123): creates a
fresh file and returns its path. -/
def mkNamedTemporaryFile (fs : TempFS) : Nat × TempFS :=
  (fs.nextId, ⟨fs.nextId + 1, fs.nextId :: fs.files⟩)

/-- `os.unlink` (main.py line 149): removes the file from disk. -/
def unlink (p : Nat) (fs : TempFS) : TempFS :=
  ⟨fs.nextId, fs.files.erase p⟩

/-- `transcribe_with_word_timestamps` (main.py lines 118-149).  The whisper
model call is an external effect, so its outcome is passed in: `.ok segs` is
the segment iterator the model returns, `.error e` is an exception raised by
the model.  The temporary file is created before the call and, mirroring the
`try/finally`, unlinked on both the return path and the raise path. -/
def transcribe_with_word_timestamps (modelOut : Except String (List Segment))
    (fs : TempFS) : Except String (List WordTiming) × TempFS :=
  let (temp_path, fs1) := mkNamedTemporaryFile fs
  (match modelOut with
   | .ok segs => .ok (flattenWords segs)
   | .error e => .error e,
   unlink temp_path fs1)

/-- A loaded whisper model handle, recording the constructor arguments of
`WhisperModel(WHISPER_MODEL, device=..., compute_type=...)` (main.py
lines 39-43). -/
structure WhisperModelHandle where
  modelSize : String
  device : String
  computeType : String
deriving DecidableEq

/-- `get_whisper_model` (main.py lines 33-45) as a state transformer.  The
state is the global `whisper_model` (`none` = not yet loaded) paired with a
count of how many times the model constructor has run.  On `none` the model is
constructed with the configured size and device, and compute type `"int8"` on
`"cpu"`, `"float16"` otherwise; on `some m` the cached handle is returned
unchanged. -/
def get_whisper_model (WHISPER_MODEL WHISPER_DEVICE : String) :
    Option WhisperModelHandle × Nat → WhisperModelHandle × (Option WhisperModelHandle × Nat)
  | (none, loads) =>
      let m : WhisperModelHandle :=
        { modelSize := WHISPER_MODEL, device := WHISPER_DEVICE,
          computeType := if WHISPER_DEVICE = "cpu" then "int8" else "float16" }
      (m, (some m, loads + 1))
  | (some m, loads) => (m, (some m, loads))

/-- Runs `get_whisper_model` `n` times in sequence from a starting state and
returns the final state. -/
def runGetWhisperModel (size device : String) :
    Nat → Option WhisperModelHandle × Nat → Option WhisperModelHandle × Nat
  | 0, st => st
  | n + 1, st => runGetWhisperModel size device n (get_whisper_model size device st).2

/-- The character for one 6-bit value of the standard base64 alphabet
(`A-Z`, `a-z`, `0-9`, `+`, `/`), as used by `base64.b64encode`. -/
def b64ValChar (v : Nat) : Char :=
  if v < 26 then Char.ofNat (65 + v)
  else if v < 52 then Char.ofNat (97 + (v - 26))
  else if v < 62 then Char.ofNat (48 + (v - 52))
  else if v = 62 then '+'
  else '/'

/-- The 6-bit value of one character of the standard base64 alphabet, `none`
for every character outside it (the padding `'='` included). -/
def b64CharVal (c : Char) : Option Nat :=
  if 65 ≤ c.toNat ∧ c.toNat ≤ 90 then some (c.toNat - 65)
  else if 97 ≤ c.toNat ∧ c.toNat ≤ 122 then some (26 + (c.toNat - 97))
  else if 48 ≤ c.toNat ∧ c.toNat ≤ 57 then some (52 + (c.toNat - 48))
  else if c = '+' then some 62
  else if c = '/' then some 63
  else none

/-- Standard base64 encoding of a byte list (bytes as numbers below 256),
three bytes to four characters, the tail padded with `'='`.  Models
`base64.b64encode` as called on the synthesized audio (main.py line 316). -/
def b64encodeList : List Nat → List Char
  | [] => []
  | [b0] => [b64ValChar (b0 / 4), b64ValChar (b0 % 4 * 16), '=', '=']
  | [b0, b1] =>
      [b64ValChar (b0 / 4), b64ValChar (b0 % 4 * 16 + b1 / 16), b64ValChar (b1 % 16 * 4), '=']
  | b0 :: b1 :: b2 :: rest =>
      b64ValChar (b0 / 4) :: b64ValChar (b0 % 4 * 16 + b1 / 16) ::
      b64ValChar (b1 % 16 * 4 + b2 / 64) :: b64ValChar (b2 % 64) :: b64encodeList rest

/-- `base64.b64encode(...).decode("utf-8")`: the encoded bytes as a string. -/
def b64encode (bs : List Nat) : String := String.mk (b64encodeList bs)

/-- CPython's `binascii.a2b_base64` loop in its default non-strict mode
(Modules/binascii.c): walk the characters with a quad-position state machine
(`quad_pos`, the pending bits `leftchar`, the pad count `pads` since the last
data character, and the bytes emitted so far in reverse).  A data character
emits a byte at quad positions 1-3; a character outside the alphabet is
skipped; an `'='` is ignored unless `quad_pos ≥ 2` and it completes a pad
sequence (`quad_pos + pads ≥ 4`), in which case decoding stops successfully
and any trailing input is discarded.  Input exhausted mid-quad
(`quad_pos ≠ 0`) is the padding error, modelled as `none`.  The C code tests
`c == '='` before the table lookup; since `'='` is outside the alphabet the
two tests are disjoint and the order of the checks does not matter. -/
def a2bBase64 : List Char → Nat → Nat → Nat → List Nat → Option (List Nat)
  | [], quad_pos, _leftchar, _pads, acc =>
      if quad_pos = 0 then some acc.reverse else none
  | c :: rest, quad_pos, leftchar, pads, acc =>
      match b64CharVal c with
      | some v =>
          match quad_pos with
          | 0 => a2bBase64 rest 1 v 0 acc
          | 1 => a2bBase64 rest 2 (v % 16) 0 ((leftchar * 4 + v / 16) :: acc)
          | 2 => a2bBase64 rest 3 (v % 4) 0 ((leftchar * 16 + v / 4) :: acc)
          | _ => a2bBase64 rest 0 0 0 ((leftchar * 64 + v) :: acc)
      | none =>
          if c = '=' then
            if 2 ≤ quad_pos then
              if 4 ≤ quad_pos + (pads + 1) then some acc.reverse
              else a2bBase64 rest quad_pos leftchar (pads + 1) acc
            else a2bBase64 rest quad_pos leftchar pads acc
          else a2bBase64 rest quad_pos leftchar pads acc

/-- `base64.b64decode` as called on `request.audio_file` (main.py line 242):
the string is first encoded as ASCII (`_bytes_from_decode_data` raises
`ValueError` on any code point ≥ 128), then handed to `binascii.a2b_base64`
in its default non-strict mode; `none` models either raised decode error. -/
def pythonB64Decode (s : String) : Option (List Nat) :=
  if s.toList.all (fun c => c.toNat < 128) then a2bBase64 s.toList 0 0 0 []
  else none

/-- An HTTP response from the TTS backend (`httpx.Response`): status code, raw
body bytes (`.content`), and the body decoded as text (`.text`). -/
structure BackendResponse where
  status_code : Nat
  content : List Nat
  text : String
deriving DecidableEq

/-- The request body of `POST /v1/audio/align` (main.py lines 74-76). -/
structure AlignRequest where
  audio_file : String
  language : Option String := none
deriving DecidableEq

/-- The request body of `POST /v1/audio/speech_with_alignment`
(main.py lines 89-95). -/
structure SpeechWithAlignmentRequest where
  model : String := "tts-1"
  input : String
  voice : String := "af_alloy"
  response_format : String := "mp3"
  speed : ℚ := 1
  language : Option String := none
deriving DecidableEq

/-- What `align_audio` answers the client: a 200 with the word list, or an
`HTTPException` with a status code and a detail message. -/
inductive AlignOutcome where
  | ok (words : List WordTiming)
  | httpError (status : Nat) (detail : String)
deriving DecidableEq

/-- `align_audio` (main.py lines 232-260).  The base64 decode, the size gate
and the transcription run in order, each short-circuiting into an
`HTTPException`; a transcription failure is caught and re-raised as a 500.
The detail of the 400 decode error carries the exception text in the source
(`f"Invalid base64 encoding: {e}"`); the embedding keeps the fixed prefix. -/
def align_audio (req : AlignRequest) (modelOut : Except String (List Segment))
    (fs : TempFS) : AlignOutcome × TempFS :=
  match pythonB64Decode req.audio_file with
  | none => (.httpError 400 "Invalid base64 encoding", fs)
  | some audio_bytes =>
      if audio_bytes.length < 100 then (.httpError 400 "Audio file too small", fs)
      else
        match transcribe_with_word_timestamps modelOut fs with
        | (.ok words, fs1) => (.ok words, fs1)
        | (.error e, fs1) => (.httpError 500 ("Alignment failed: " ++ e), fs1)

/-- What `generate_speech_with_alignment` answers the client: a 200 carrying
base64 audio, the word list and the format, or an `HTTPException`. -/
inductive SwaOutcome where
  | ok (audio : String) (words : List WordTiming) (format : String)
  | httpError (status : Nat) (detail : String)
deriving DecidableEq

/-- The observable result of one `generate_speech_with_alignment` call: the
HTTP outcome, the temp-file state after the call, whether the alignment
engine (`transcribe_with_word_timestamps`) was invoked, and with which
language argument (`none` when it was never invoked). -/
structure SwaResult where
  response : SwaOutcome
  fs : TempFS
  alignCalled : Bool
  alignLanguage : Option String
deriving DecidableEq

/-- `generate_speech_with_alignment` (main.py lines 263-328).  The backend
call is an external effect passed in: `.error ()` models a raised
`httpx.RequestError` (connectivity failure, caught and turned into a 503),
`.ok resp` the backend's response.  A non-200 backend status raises an
`HTTPException` with that status and a "TTS generation failed" detail before
alignment runs; otherwise the language is resolved from the request and the
alignment engine runs on the synthesized bytes, its own failure becoming a
500 "Generation failed" response. -/
def generate_speech_with_alignment (req : SpeechWithAlignmentRequest)
    (backend : Except Unit BackendResponse) (modelOut : Except String (List Segment))
    (fs : TempFS) : SwaResult :=
  match backend with
  | .error _ =>
      { response := .httpError 503 "TTS service unavailable", fs := fs,
        alignCalled := false, alignLanguage := none }
  | .ok tts_response =>
      if tts_response.status_code ≠ 200 then
        { response := .httpError tts_response.status_code
            ("TTS generation failed: " ++ tts_response.text),
          fs := fs, alignCalled := false, alignLanguage := none }
      else
        let audio_bytes := tts_response.content
        let language := resolvedLanguage req.language req.input
        match transcribe_with_word_timestamps modelOut fs with
        | (.ok words, fs1) =>
            { response := .ok (b64encode audio_bytes) words req.response_format,
              fs := fs1, alignCalled := true, alignLanguage := some language }
        | (.error e, fs1) =>
            { response := .httpError 500 ("Generation failed: " ++ e),
              fs := fs1, alignCalled := true, alignLanguage := some language }

theorem any_isKanaChar_iff (t : String) :
    t.toList.any isKanaChar = true ↔ specHasKana t := by
  simp only [List.any_eq_true, isKanaChar, specHasKana, Bool.or_eq_true,
    Bool.and_eq_true, decide_eq_true_eq]

theorem any_isCJKChar_iff (t : String) :
    t.toList.any isCJKChar = true ↔ specHasCJKIdeograph t := by
  simp only [List.any_eq_true, isCJKChar, specHasCJKIdeograph,
    Bool.and_eq_true, decide_eq_true_eq]

theorem detectLanguage_mem (t : String) :
    detectLanguage t = "ja" ∨ detectLanguage t = "zh" ∨ detectLanguage t = "en" := by
  unfold detectLanguage
  split_ifs <;> simp

theorem roundHalfEven_ge_floor (q : ℚ) : ⌊q⌋ ≤ roundHalfEven q := by
  unfold roundHalfEven
  split_ifs with h1 h2
  · exact le_refl _
  · omega
  · rw [round_eq]
    exact Int.floor_mono (by linarith)

theorem roundHalfEven_le_floor_add_one (q : ℚ) : roundHalfEven q ≤ ⌊q⌋ + 1 := by
  unfold roundHalfEven
  split_ifs with h1 h2
  · omega
  · exact le_refl _
  · rw [round_eq]
    have : (⌊q⌋ : ℚ) + 1 = ((⌊q⌋ + 1 : ℤ) : ℚ) := by push_cast; ring
    calc ⌊q + 1 / 2⌋ ≤ ⌊q + 1⌋ := Int.floor_mono (by linarith)
      _ = ⌊q⌋ + 1 := by rw [Int.floor_add_one]

theorem roundHalfEven_of_tie {q : ℚ} (h : q - ⌊q⌋ = 1 / 2) :
    roundHalfEven q = if ⌊q⌋ % 2 = 0 then ⌊q⌋ else ⌊q⌋ + 1 := if_pos h

theorem roundHalfEven_of_no_tie {q : ℚ} (h : ¬ q - ⌊q⌋ = 1 / 2) :
    roundHalfEven q = round q := if_neg h

theorem roundHalfEven_mono {q r : ℚ} (h : q ≤ r) :
    roundHalfEven q ≤ roundHalfEven r := by
  rcases lt_or_eq_of_le (Int.floor_mono h) with hf | hf
  · calc roundHalfEven q ≤ ⌊q⌋ + 1 := roundHalfEven_le_floor_add_one q
      _ ≤ ⌊r⌋ := by omega
      _ ≤ roundHalfEven r := roundHalfEven_ge_floor r
  · have hfloorq : (⌊q⌋ : ℚ) ≤ q := Int.floor_le q
    have hfloorr : (⌊r⌋ : ℚ) ≤ r := Int.floor_le r
    by_cases hq : q - ⌊q⌋ = 1 / 2 <;> by_cases hr : r - ⌊r⌋ = 1 / 2
    · rw [roundHalfEven_of_tie hq, roundHalfEven_of_tie hr, hf]
    · -- q is a tie, r is not: r > ⌊r⌋ + 1/2, so round r = ⌊r⌋ + 1
      rw [roundHalfEven_of_no_tie hr, round_eq]
      have hgt : (⌊r⌋ : ℚ) + 1 / 2 < r := by
        rcases lt_or_eq_of_le (by rw [← hf]; linarith : (⌊r⌋ : ℚ) + 1 / 2 ≤ r) with hlt | heq
        · exact hlt
        · exact absurd (by linarith) hr
      have hle : (⌊r⌋ + 1 : ℤ) ≤ ⌊r + 1 / 2⌋ := by
        apply Int.le_floor.mpr
        push_cast
        linarith
      have := roundHalfEven_le_floor_add_one q
      omega
    · -- r is a tie, q is not: q < ⌊q⌋ + 1/2, so round q = ⌊q⌋
      rw [roundHalfEven_of_no_tie hq, round_eq]
      have hlt : q < (⌊q⌋ : ℚ) + 1 / 2 := by
        rcases lt_or_eq_of_le (by rw [hf]; linarith : q ≤ (⌊q⌋ : ℚ) + 1 / 2) with hlt | heq
        · exact hlt
        · exact absurd (by linarith) hq
      have hle : ⌊q + 1 / 2⌋ < ⌊q⌋ + 1 := by
        apply Int.floor_lt.mpr
        push_cast
        linarith
      have := roundHalfEven_ge_floor r
      omega
    · rw [roundHalfEven_of_no_tie hq, roundHalfEven_of_no_tie hr, round_eq, round_eq]
      exact Int.floor_mono (by linarith)

theorem round3_mono {q r : ℚ} (h : q ≤ r) : round3 q ≤ round3 r := by
  unfold round3
  have := roundHalfEven_mono (by linarith : q * 1000 ≤ r * 1000)
  have hc : ((roundHalfEven (q * 1000) : ℚ)) ≤ ((roundHalfEven (r * 1000) : ℚ)) :=
    Int.cast_le.mpr this
  linarith

theorem flattenWords_eq (segs : List Segment) :
    flattenWords segs = (segs.flatMap Segment.words).map mkWordTiming := by
  induction segs with
  | nil => rfl
  | cons seg rest ih =>
      rw [flattenWords, List.flatMap_cons, List.map_append, ih]
      by_cases h : seg.words.isEmpty
      · rw [if_pos h, List.isEmpty_iff.mp h]
        rfl
      · rw [if_neg h]

theorem runGetWhisperModel_loaded (size device : String) (n : Nat)
    (m : WhisperModelHandle) (k : Nat) :
    runGetWhisperModel size device n (some m, k) = (some m, k) := by
  induction n with
  | zero => rfl
  | succ n ih => rw [runGetWhisperModel, get_whisper_model, ih]

theorem b64CharVal_b64ValChar : ∀ v < 64, b64CharVal (b64ValChar v) = some v := by
  decide

theorem b64CharVal_pad : b64CharVal '=' = none := by decide

theorem b64ValChar_ascii : ∀ v < 64, (b64ValChar v).toNat < 128 := by
  decide

theorem mem_b64encodeList_ascii : ∀ (bs : List Nat), (∀ b ∈ bs, b < 256) →
    ∀ c ∈ b64encodeList bs, c.toNat < 128
  | [], _, c, hc => by simp [b64encodeList] at hc
  | [b0], h, c, hc => by
      have h0 : b0 < 256 := h b0 (by simp)
      rw [b64encodeList] at hc
      simp only [List.mem_cons, List.not_mem_nil, or_false] at hc
      rcases hc with rfl | rfl | rfl | rfl
      · exact b64ValChar_ascii _ (by omega)
      · exact b64ValChar_ascii _ (by omega)
      · decide
      · decide
  | [b0, b1], h, c, hc => by
      have h0 : b0 < 256 := h b0 (by simp)
      have h1 : b1 < 256 := h b1 (by simp)
      rw [b64encodeList] at hc
      simp only [List.mem_cons, List.not_mem_nil, or_false] at hc
      rcases hc with rfl | rfl | rfl | rfl
      · exact b64ValChar_ascii _ (by omega)
      · exact b64ValChar_ascii _ (by omega)
      · exact b64ValChar_ascii _ (by omega)
      · decide
  | b0 :: b1 :: b2 :: rest, h, c, hc => by
      have h0 : b0 < 256 := h b0 (by simp)
      have h1 : b1 < 256 := h b1 (by simp)
      have h2 : b2 < 256 := h b2 (by simp)
      rw [b64encodeList] at hc
      simp only [List.mem_cons] at hc
      rcases hc with rfl | rfl | rfl | rfl | hc
      · exact b64ValChar_ascii _ (by omega)
      · exact b64ValChar_ascii _ (by omega)
      · exact b64ValChar_ascii _ (by omega)
      · exact b64ValChar_ascii _ (by omega)
      · exact mem_b64encodeList_ascii rest (fun b hb => h b (by simp [hb])) c hc

theorem all_b64encodeList_ascii (bs : List Nat) (h : ∀ b ∈ bs, b < 256) :
    (b64encodeList bs).all (fun c => c.toNat < 128) = true := by
  rw [List.all_eq_true]
  intro c hc
  exact decide_eq_true (mem_b64encodeList_ascii bs h c hc)

theorem a2bBase64_b64encodeList : ∀ (bs : List Nat), (∀ b ∈ bs, b < 256) →
    ∀ (acc : List Nat), a2bBase64 (b64encodeList bs) 0 0 0 acc = some (acc.reverse ++ bs)
  | [], _, acc => by simp [b64encodeList, a2bBase64]
  | [b0], h, acc => by
      have h0 : b0 < 256 := h b0 (by simp)
      have e0 : b64CharVal (b64ValChar (b0 / 4)) = some (b0 / 4) :=
        b64CharVal_b64ValChar _ (by omega)
      have e1 : b64CharVal (b64ValChar (b0 % 4 * 16)) = some (b0 % 4 * 16) :=
        b64CharVal_b64ValChar _ (by omega)
      rw [b64encodeList]
      simp only [a2bBase64, e0, e1, b64CharVal_pad]
      simp [List.reverse_cons]
      all_goals omega
  | [b0, b1], h, acc => by
      have h0 : b0 < 256 := h b0 (by simp)
      have h1 : b1 < 256 := h b1 (by simp)
      have e0 : b64CharVal (b64ValChar (b0 / 4)) = some (b0 / 4) :=
        b64CharVal_b64ValChar _ (by omega)
      have e1 : b64CharVal (b64ValChar (b0 % 4 * 16 + b1 / 16)) = some (b0 % 4 * 16 + b1 / 16) :=
        b64CharVal_b64ValChar _ (by omega)
      have e2 : b64CharVal (b64ValChar (b1 % 16 * 4)) = some (b1 % 16 * 4) :=
        b64CharVal_b64ValChar _ (by omega)
      rw [b64encodeList]
      simp only [a2bBase64, e0, e1, e2, b64CharVal_pad]
      simp [List.reverse_cons, List.append_assoc]
      all_goals omega
  | b0 :: b1 :: b2 :: rest, h, acc => by
      have h0 : b0 < 256 := h b0 (by simp)
      have h1 : b1 < 256 := h b1 (by simp)
      have h2 : b2 < 256 := h b2 (by simp)
      have e0 : b64CharVal (b64ValChar (b0 / 4)) = some (b0 / 4) :=
        b64CharVal_b64ValChar _ (by omega)
      have e1 : b64CharVal (b64ValChar (b0 % 4 * 16 + b1 / 16)) = some (b0 % 4 * 16 + b1 / 16) :=
        b64CharVal_b64ValChar _ (by omega)
      have e2 : b64CharVal (b64ValChar (b1 % 16 * 4 + b2 / 64)) = some (b1 % 16 * 4 + b2 / 64) :=
        b64CharVal_b64ValChar _ (by omega)
      have e3 : b64CharVal (b64ValChar (b2 % 64)) = some (b2 % 64) :=
        b64CharVal_b64ValChar _ (by omega)
      rw [b64encodeList]
      simp only [a2bBase64, e0, e1, e2, e3]
      rw [a2bBase64_b64encodeList rest (fun b hb => h b (by simp [hb]))]
      simp [List.reverse_cons, List.append_assoc]
      all_goals omega

/-- C8: base64-encoding any byte buffer (as the combined endpoint does to the
synthesized audio) and then base64-decoding the resulting string (as the align
endpoint does to `audio_file`) yields the original buffer, byte for byte. -/
theorem claim_C8_base64_roundtrip (bs : List Nat) (h : ∀ b ∈ bs, b < 256) :
    pythonB64Decode (b64encode bs) = some bs := by
  unfold pythonB64Decode b64encode
  rw [show (String.mk (b64encodeList bs)).toList = b64encodeList bs from rfl]
  rw [if_pos (all_b64encodeList_ascii bs h), a2bBase64_b64encodeList bs h []]
  rfl

theorem claim_C8_base64_roundtrip_witness :
    pythonB64Decode (b64encode [77, 3, 255, 0, 128]) = some [77, 3, 255, 0, 128] :=
  claim_C8_base64_roundtrip [77, 3, 255, 0, 128] (by decide)

theorem swa_alignLanguage_of_ok (req : SpeechWithAlignmentRequest)
    (resp : BackendResponse) (modelOut : Except String (List Segment)) (fs : TempFS)
    (hstatus : resp.status_code = 200) :
    (generate_speech_with_alignment req (.ok resp) modelOut fs).alignLanguage
      = some (resolvedLanguage req.language req.input) := by
  simp only [generate_speech_with_alignment]
  rw [if_neg (by rw [hstatus]; simp)]
  cases modelOut <;> rfl

/-- C2: with no hint, the language used by `synthesizeAndAlign` is the pure
heuristic over the input text's code points: "ja" on any Hiragana/Katakana
code point, else "zh" on any CJK Unified Ideograph, else "en" — so a text
holding both kana and CJK ideographs resolves to "ja", "こんにちは" to "ja",
"你好" to "zh" and "Hello" to "en". -/
theorem claim_C2_language_heuristic (t : String) :
    (specHasKana t → detectLanguage t = "ja") ∧
    (¬ specHasKana t → specHasCJKIdeograph t → detectLanguage t = "zh") ∧
    (¬ specHasKana t → ¬ specHasCJKIdeograph t → detectLanguage t = "en") ∧
    detectLanguage "こんにちは" = "ja" ∧
    detectLanguage "你好" = "zh" ∧
    detectLanguage "Hello" = "en" := by
  refine ⟨?_, ?_, ?_, by decide, by decide, by decide⟩
  · intro h
    unfold detectLanguage
    rw [if_pos ((any_isKanaChar_iff t).mpr h)]
  · intro hk hc
    unfold detectLanguage
    rw [if_neg (fun hh => hk ((any_isKanaChar_iff t).mp hh)),
      if_pos ((any_isCJKChar_iff t).mpr hc)]
  · intro hk hc
    unfold detectLanguage
    rw [if_neg (fun hh => hk ((any_isKanaChar_iff t).mp hh)),
      if_neg (fun hh => hc ((any_isCJKChar_iff t).mp hh))]

theorem claim_C2_language_heuristic_witness :
    detectLanguage "漢字とかな" = "ja" ∧
    detectLanguage "你好" = "zh" ∧
    detectLanguage "Hello" = "en" :=
  ⟨(claim_C2_language_heuristic "漢字とかな").1 (by decide),
   (claim_C2_language_heuristic "你好").2.1 (by decide) (by decide),
   (claim_C2_language_heuristic "Hello").2.2.1 (by decide) (by decide)⟩

/-- C10: a present-but-empty language hint behaves exactly like an absent
hint: for a successful backend response, the language handed to the alignment
engine is the heuristic's result over the input text, never the empty
string. -/
theorem claim_C10_empty_hint (req : SpeechWithAlignmentRequest)
    (resp : BackendResponse) (modelOut : Except String (List Segment)) (fs : TempFS)
    (hstatus : resp.status_code = 200)
    (hlang : req.language = none ∨ req.language = some "") :
    (generate_speech_with_alignment req (.ok resp) modelOut fs).alignLanguage
      = some (detectLanguage req.input) ∧
    (generate_speech_with_alignment req (.ok resp) modelOut fs).alignLanguage
      ≠ some "" := by
  have hres : resolvedLanguage req.language req.input = detectLanguage req.input := by
    rcases hlang with h | h <;> rw [h] <;> simp [resolvedLanguage]
  have hval := swa_alignLanguage_of_ok req resp modelOut fs hstatus
  rw [hval, hres]
  refine ⟨rfl, ?_⟩
  intro h
  rcases detectLanguage_mem req.input with hd | hd | hd <;>
    rw [hd] at h <;> simp at h

theorem claim_C10_empty_hint_witness :
    (generate_speech_with_alignment
        { input := "你好", language := some "" }
        (.ok ⟨200, [1, 2], "x"⟩) (.ok []) ⟨0, []⟩).alignLanguage
      = some (detectLanguage "你好") ∧
    (generate_speech_with_alignment
        { input := "你好", language := some "" }
        (.ok ⟨200, [1, 2], "x"⟩) (.ok []) ⟨0, []⟩).alignLanguage
      ≠ some "" :=
  claim_C10_empty_hint _ _ _ _ rfl (Or.inr rfl)

/-- C4: every call of the alignment engine deletes the temporary file it
created on every exit path — model success (the empty result included) and
model failure — so the temp-file store is exactly as before the call, and the
file created for the call is gone. -/
theorem claim_C4_temp_file_cleanup (modelOut : Except String (List Segment)) (fs : TempFS) :
    (transcribe_with_word_timestamps modelOut fs).2.files = fs.files ∧
    (fs.nextId ∉ fs.files →
      fs.nextId ∉ (transcribe_with_word_timestamps modelOut fs).2.files) := by
  have hfiles : (transcribe_with_word_timestamps modelOut fs).2.files = fs.files := by
    cases modelOut <;>
      simp [transcribe_with_word_timestamps, mkNamedTemporaryFile, unlink,
        List.erase_cons_head]
  exact ⟨hfiles, fun h => by rw [hfiles]; exact h⟩

theorem claim_C4_temp_file_cleanup_witness :
    (0 : Nat) ∉ (transcribe_with_word_timestamps (.error "corrupt audio") ⟨0, []⟩).2.files :=
  (claim_C4_temp_file_cleanup (.error "corrupt audio") ⟨0, []⟩).2 (by decide)

/-- C5: the engine flattens the model's segment-by-segment output into one
word list preserving segment order and within-segment word order, with each
word's text trimmed of surrounding whitespace and each start/end rounded to 3
decimal places; a model output with zero detected words yields `.ok []`, a
valid non-error result. -/
theorem claim_C5_flattening (segs : List Segment) (fs : TempFS) :
    flattenWords segs = (segs.flatMap Segment.words).map
      (fun w => { word := w.word.trim, start := round3 w.start, end_ := round3 w.end_ }) ∧
    ((∀ seg ∈ segs, seg.words = []) →
      (transcribe_with_word_timestamps (.ok segs) fs).1 = .ok []) := by
  refine ⟨flattenWords_eq segs, ?_⟩
  intro h
  have hnil : flattenWords segs = [] := by
    induction segs with
    | nil => rfl
    | cons seg rest ih =>
        rw [flattenWords, h seg (by simp), ih (fun s hs => h s (by simp [hs]))]
        rfl
  simp [transcribe_with_word_timestamps, hnil]

theorem claim_C5_flattening_witness :
    (transcribe_with_word_timestamps (.ok [⟨[]⟩, ⟨[]⟩]) ⟨0, []⟩).1 = .ok [] :=
  (claim_C5_flattening [⟨[]⟩, ⟨[]⟩] ⟨0, []⟩).2 (by decide)

/-- C6: a word list produced by the alignment engine satisfies
`start ≤ end` for each word and is ordered by non-decreasing `start`,
whenever the raw model output satisfies the same (the contract of the
external whisper model): trimming does not touch the times and 3-decimal
rounding is monotone, so both invariants survive the flattening. -/
theorem claim_C6_timing_invariants (segs : List Segment)
    (h1 : ∀ w ∈ segs.flatMap Segment.words, w.start ≤ w.end_)
    (h2 : (segs.flatMap Segment.words).Chain' (fun a b => a.start ≤ b.start)) :
    (∀ t ∈ flattenWords segs, t.start ≤ t.end_) ∧
    (flattenWords segs).Chain' (fun a b => a.start ≤ b.start) := by
  rw [flattenWords_eq]
  constructor
  · intro t ht
    rw [List.mem_map] at ht
    obtain ⟨w, hw, rfl⟩ := ht
    exact round3_mono (h1 w hw)
  · rw [List.chain'_map]
    exact h2.imp (fun a b hab => round3_mono hab)

theorem claim_C6_timing_invariants_witness :
    (∀ t ∈ flattenWords [⟨[⟨" hello ", 0, 1⟩]⟩, ⟨[⟨"world", 1, 2⟩]⟩], t.start ≤ t.end_) ∧
    (flattenWords [⟨[⟨" hello ", 0, 1⟩]⟩, ⟨[⟨"world", 1, 2⟩]⟩]).Chain'
      (fun a b => a.start ≤ b.start) :=
  claim_C6_timing_invariants [⟨[⟨" hello ", 0, 1⟩]⟩, ⟨[⟨"world", 1, 2⟩]⟩]
    (by
      intro w hw
      simp only [List.flatMap_cons, List.flatMap_nil, List.append_nil,
        List.singleton_append, List.mem_cons, List.not_mem_nil, or_false] at hw
      rcases hw with rfl | rfl <;> norm_num)
    (by
      simp only [List.flatMap_cons, List.flatMap_nil, List.append_nil,
        List.singleton_append]
      rw [List.chain'_pair]
      norm_num)

/-- C7: the first `get_whisper_model` call constructs the handle with the
configured size and device, compute type "int8" on device "cpu" and
"float16" otherwise, and caches it; every later call returns the cached
handle with the state unchanged, so across any sequence of calls the model
is constructed at most once. -/
theorem claim_C7_model_singleton (size device : String) :
    ((get_whisper_model size device (none, 0)).1.modelSize = size ∧
     (get_whisper_model size device (none, 0)).1.device = device ∧
     (device = "cpu" → (get_whisper_model size device (none, 0)).1.computeType = "int8") ∧
     (device ≠ "cpu" → (get_whisper_model size device (none, 0)).1.computeType = "float16") ∧
     (get_whisper_model size device (none, 0)).2
        = (some (get_whisper_model size device (none, 0)).1, 1)) ∧
    (∀ (m : WhisperModelHandle) (k : Nat),
      get_whisper_model size device (some m, k) = (m, (some m, k))) ∧
    (∀ n : Nat, (runGetWhisperModel size device n (none, 0)).2 ≤ 1) := by
  refine ⟨⟨rfl, rfl, ?_, ?_, rfl⟩, fun m k => rfl, ?_⟩
  · intro h
    simp [get_whisper_model, h]
  · intro h
    simp [get_whisper_model, h]
  · intro n
    cases n with
    | zero => simp [runGetWhisperModel]
    | succ n =>
        rw [runGetWhisperModel,
          show (get_whisper_model size device (none, 0)).2
              = (some ⟨size, device, if device = "cpu" then "int8" else "float16"⟩, 1)
            from rfl,
          runGetWhisperModel_loaded]

theorem claim_C7_model_singleton_witness :
    (get_whisper_model "tiny" "cpu" (none, 0)).1.computeType = "int8" ∧
    (get_whisper_model "tiny" "cuda" (none, 0)).1.computeType = "float16" ∧
    (runGetWhisperModel "tiny" "cpu" 5 (none, 0)).2 ≤ 1 :=
  ⟨(claim_C7_model_singleton "tiny" "cpu").1.2.2.1 rfl,
   (claim_C7_model_singleton "tiny" "cuda").1.2.2.2.1 (by decide),
   (claim_C7_model_singleton "tiny" "cpu").2.2 5⟩

/-- C3: on every align request, a malformed base64 `audio_file` answers 400
with the decode-failure message, a decoded payload under 100 bytes answers
400 with the too-small message, a transcription failure answers 500, and
otherwise the endpoint answers 200 with the word list. -/
theorem claim_C3_align_error_paths (req : AlignRequest)
    (modelOut : Except String (List Segment)) (fs : TempFS) :
    (pythonB64Decode req.audio_file = none →
      (align_audio req modelOut fs).1 = .httpError 400 "Invalid base64 encoding") ∧
    (∀ bs, pythonB64Decode req.audio_file = some bs → bs.length < 100 →
      (align_audio req modelOut fs).1 = .httpError 400 "Audio file too small") ∧
    (∀ bs e, pythonB64Decode req.audio_file = some bs → ¬ bs.length < 100 →
      modelOut = .error e →
      (align_audio req modelOut fs).1 = .httpError 500 ("Alignment failed: " ++ e)) ∧
    (∀ bs segs, pythonB64Decode req.audio_file = some bs → ¬ bs.length < 100 →
      modelOut = .ok segs →
      (align_audio req modelOut fs).1 = .ok (flattenWords segs)) := by
  refine ⟨?_, ?_, ?_, ?_⟩
  · intro h
    unfold align_audio
    rw [h]
  · intro bs hbs hlen
    unfold align_audio
    rw [hbs]
    simp only [if_pos hlen]
  · intro bs e hbs hlen he
    unfold align_audio
    rw [hbs, he]
    simp only [if_neg hlen]
    rfl
  · intro bs segs hbs hlen hs
    unfold align_audio
    rw [hbs, hs]
    simp only [if_neg hlen]
    rfl

theorem claim_C3_align_error_paths_witness :
    (align_audio ⟨"not-valid-base64!!!", none⟩ (.ok []) ⟨0, []⟩).1
        = .httpError 400 "Invalid base64 encoding" ∧
    (align_audio ⟨b64encode (List.replicate 50 0), none⟩ (.ok []) ⟨0, []⟩).1
        = .httpError 400 "Audio file too small" ∧
    (align_audio ⟨b64encode (List.replicate 100 1), none⟩ (.error "boom") ⟨0, []⟩).1
        = .httpError 500 ("Alignment failed: " ++ "boom") ∧
    (align_audio ⟨b64encode (List.replicate 100 1), none⟩
        (.ok [⟨[⟨" hi ", 0, 1⟩]⟩]) ⟨0, []⟩).1
        = .ok (flattenWords [⟨[⟨" hi ", 0, 1⟩]⟩]) :=
  ⟨(claim_C3_align_error_paths ⟨"not-valid-base64!!!", none⟩ (.ok []) ⟨0, []⟩).1
      (by decide),
   (claim_C3_align_error_paths ⟨b64encode (List.replicate 50 0), none⟩ (.ok []) ⟨0, []⟩).2.1
      (List.replicate 50 0) (by decide) (by decide),
   (claim_C3_align_error_paths ⟨b64encode (List.replicate 100 1), none⟩
      (.error "boom") ⟨0, []⟩).2.2.1
      (List.replicate 100 1) "boom" (by decide) (by decide) rfl,
   (claim_C3_align_error_paths ⟨b64encode (List.replicate 100 1), none⟩
      (.ok [⟨[⟨" hi ", 0, 1⟩]⟩]) ⟨0, []⟩).2.2.2
      (List.replicate 100 1) [⟨[⟨" hi ", 0, 1⟩]⟩] (by decide) (by decide) rfl⟩

/-- C1 as stated is false at a concrete input: for a backend response with
status 500 and body text "boom", the combined endpoint's response carries the
backend's status but its body is the wrapped error detail
"TTS generation failed: boom", which differs from the backend body. -/
theorem claim_C1_counterexample :
    (generate_speech_with_alignment
        { input := "Hello" } (.ok ⟨500, [98, 111, 111, 109], "boom"⟩)
        (.ok []) ⟨0, []⟩).response
      = .httpError 500 "TTS generation failed: boom" ∧
    "TTS generation failed: boom" ≠ "boom" := by
  exact ⟨rfl, by decide⟩

/-- C1 amended: on a non-success backend status the combined endpoint
propagates the backend's status code verbatim, its body is the error detail
"TTS generation failed: " followed by the backend's body text (not the
backend body verbatim), and the alignment engine is not invoked (no language
is resolved for alignment and the temp-file store is untouched). -/
theorem claim_C1_backend_failure (req : SpeechWithAlignmentRequest)
    (resp : BackendResponse) (modelOut : Except String (List Segment)) (fs : TempFS)
    (h : resp.status_code ≠ 200) :
    (generate_speech_with_alignment req (.ok resp) modelOut fs).response
      = .httpError resp.status_code ("TTS generation failed: " ++ resp.text) ∧
    (generate_speech_with_alignment req (.ok resp) modelOut fs).alignCalled = false ∧
    (generate_speech_with_alignment req (.ok resp) modelOut fs).alignLanguage = none ∧
    (generate_speech_with_alignment req (.ok resp) modelOut fs).fs = fs := by
  simp only [generate_speech_with_alignment]
  rw [if_pos h]
  exact ⟨rfl, rfl, rfl, rfl⟩

theorem claim_C1_backend_failure_witness :
    (generate_speech_with_alignment { input := "hi" }
        (.ok ⟨404, [], "not found"⟩) (.ok []) ⟨0, []⟩).response
      = .httpError 404 ("TTS generation failed: " ++ "not found") ∧
    (generate_speech_with_alignment { input := "hi" }
        (.ok ⟨404, [], "not found"⟩) (.ok []) ⟨0, []⟩).alignCalled = false ∧
    (generate_speech_with_alignment { input := "hi" }
        (.ok ⟨404, [], "not found"⟩) (.ok []) ⟨0, []⟩).alignLanguage = none ∧
    (generate_speech_with_alignment { input := "hi" }
        (.ok ⟨404, [], "not found"⟩) (.ok []) ⟨0, []⟩).fs = ⟨0, []⟩ :=
  claim_C1_backend_failure { input := "hi" } ⟨404, [], "not found"⟩ (.ok []) ⟨0, []⟩
    (by decide)

end TTSGateway
